import Mathlib

/-!
Shallow embedding of the MiniTiktokAutomationSystem repository
(src/browser.py, src/login.py, src/uploader.py).

The Python code drives a Selenium browser; all effects go through the
driver handle.  The embedding makes each function pure by passing the
behaviour of the driver in explicitly as an environment (which probes
succeed, which injections the driver accepts, what each polling
iteration observes) and, where a claim speaks about which driver calls
happen, by returning a trace of events alongside the boolean result.
Timed polling loops (poll every k seconds up to a timeout) are embedded
as structural recursion over the finite list of observations available
before the deadline.
-/

namespace MiniTiktok

/-- Character-list prefix test, used to embed the Python substring
operator `needle in hay`. -/
def prefixOfChars : List Char → List Char → Bool
  | [], _ => true
  | _ :: _, [] => false
  | a :: as, b :: bs => a == b && prefixOfChars as bs

/-- Substring containment on character lists: some suffix of `hay`
starts with `needle`. -/
def hasSubChars (needle : List Char) : List Char → Bool
  | [] => prefixOfChars needle []
  | c :: rest => prefixOfChars needle (c :: rest) || hasSubChars needle rest

/-- Embedding of the Python expression `needle in hay` on strings. -/
def strContainsSub (needle hay : String) : Bool :=
  hasSubChars needle.toList hay.toList

/-- Embedding of the Python method `s.strip()`: drop whitespace from
both ends. -/
def pyStrip (s : String) : String :=
  String.mk ((((s.toList.dropWhile Char.isWhitespace).reverse).dropWhile
    Char.isWhitespace).reverse)

/-- Embedding of the Python method `s.lower()` (ASCII letters, which
is all the code compares against). -/
def pyLower (s : String) : String :=
  String.mk (s.toList.map Char.toLower)

/-- Embedding of the Python prefix slice `s[:n]`: a negative bound
counts from the end of the string (clamped at zero). -/
def pySlicePrefix (s : String) (n : Int) : String :=
  if 0 ≤ n then String.mk (s.toList.take n.toNat)
  else String.mk (s.toList.take (s.toList.length - (-n).toNat))

/-! ## browser.py — BrowserManager -/

/-- Result of a successful remote connection in `create_driver`:
how many connection attempts were made and how many fixed 2-second
sleeps were performed between failed attempts. -/
structure Conn where
  attemptsMade : Nat
  sleeps : Nat
  deriving DecidableEq, Repr

/-- The message of the exception raised by `create_driver` after the
retry budget is exhausted (the Python message also appends the last
underlying error, which the embedding leaves out). -/
def connectMsg (n : Nat) : String :=
  "Could not connect to Selenium after " ++ toString n ++ " attempts"

/-- Embedding of the retry loop in `BrowserManager.create_driver`
(remote mode): `for attempt in range(maxRetries)` tries
`webdriver.Remote`; success breaks out of the loop, a failure sleeps
2 seconds if another attempt remains and otherwise raises.  `ok i`
says whether the connection attempt with index `i` succeeds.  The
final fall-through case (loop range empty) cannot be reached from
`create_driver`, where `maxRetries = 30`. -/
def remoteConnectGo (ok : Nat → Bool) (maxRetries : Nat) (attempt sleeps : Nat) :
    Except String Conn :=
  if h : attempt < maxRetries then
    if ok attempt then Except.ok ⟨attempt + 1, sleeps⟩
    else if attempt < maxRetries - 1 then
      remoteConnectGo ok maxRetries (attempt + 1) (sleeps + 1)
    else Except.error (connectMsg maxRetries)
  else Except.ok ⟨attempt, sleeps⟩
termination_by maxRetries - attempt

/-- `BrowserManager.create_driver`, remote branch: `max_retries = 30`,
starting at attempt 0 with no sleeps performed. -/
def remoteConnect (ok : Nat → Bool) : Except String Conn :=
  remoteConnectGo ok 30 0 0

/-- State of a `BrowserManager`: the optional driver handle, plus
instrumentation counting `quit` calls and caught-teardown warnings. -/
structure BMState where
  driver : Option Nat
  quitCalls : Nat
  warnings : Nat
  deriving DecidableEq, Repr

/-- Behaviour of `driver.quit()`: it either returns or raises. -/
def quitDriver (raises : Bool) : Except String Unit :=
  if raises then Except.error "quit failed" else Except.ok ()

/-- Embedding of `BrowserManager.close`: if a driver handle exists,
call `quit` inside try/except (a raised exception is logged as a
warning, never propagated) and set the handle to `None`; with no
handle the method does nothing. -/
def closeBrowser (raises : Bool) (st : BMState) : BMState :=
  match st.driver with
  | none => st
  | some _ =>
    match quitDriver raises with
    | Except.ok _ =>
      { driver := none, quitCalls := st.quitCalls + 1, warnings := st.warnings }
    | Except.error _ =>
      { driver := none, quitCalls := st.quitCalls + 1, warnings := st.warnings + 1 }

/-! ## login.py — LoginManager -/

/-- A cookie record as parsed from the JSON cookie file: a Python dict
embedded as an association list of field names to values. -/
structure Cookie where
  fields : List (String × String)
  deriving DecidableEq, Repr

/-- Does the cookie record carry a field with the given name? -/
def hasField (c : Cookie) (k : String) : Bool :=
  c.fields.any (fun kv => kv.1 == k)

/-- The two `pop` calls in `LoginManager.load_cookies`: the `sameSite`
and `storeId` fields are removed from the record before
`driver.add_cookie` is attempted. -/
def sanitize (c : Cookie) : Cookie :=
  ⟨c.fields.filter (fun kv => kv.1 ≠ "sameSite" ∧ kv.1 ≠ "storeId")⟩

/-- The cookie loop of `load_cookies`: each record is sanitized and
then injected; `accepts` says whether `driver.add_cookie` succeeds on
the sanitized record (a raised injection error is caught, logged and
skipped).  The result lists, in order, every injection attempt as the
sanitized record paired with whether the driver accepted it. -/
def addCookies (accepts : Cookie → Bool) : List Cookie → List (Cookie × Bool)
  | [] => []
  | c :: cs =>
    let c1 := sanitize c
    (c1, accepts c1) :: addCookies accepts cs

/-- Driver-side behaviour relevant to `load_cookies`: whether the
cookie file exists, whether the surrounding try block (navigation,
JSON parse, refresh) succeeds, the parsed records, and which sanitized
records the driver accepts. -/
structure CookieEnv where
  fileExists : Bool
  driverOk : Bool
  cookies : List Cookie
  accepts : Cookie → Bool

/-- Embedding of `LoginManager.load_cookies`: a missing cookie file
returns `false` before touching the driver; an exception in the outer
try block returns `false`; otherwise every record is attempted and the
function returns `true`.  The second component is the trace of
injection attempts. -/
def load_cookies (env : CookieEnv) : Bool × List (Cookie × Bool) :=
  if env.fileExists = false then (false, [])
  else if env.driverOk = false then (false, [])
  else (true, addCookies env.accepts env.cookies)

/-- The ordered CSS selector list probed by `is_logged_in`. -/
def loginIndicators : List String :=
  ["[data-e2e=\"profile-icon\"]", "[data-e2e=\"nav-profile\"]", "a[href*=\"/profile\"]"]

/-- Driver-side behaviour relevant to `is_logged_in`: whether
navigating to the base URL raises, and which selector lookups
succeed. -/
structure ProbeEnv where
  navRaises : Bool
  selectorFound : String → Bool

/-- The body of `is_logged_in` before its outer try/except: navigate
to the base URL (an error escapes as an exception), then try each
login indicator selector in order, swallowing per-selector lookup
failures; any hit means logged-in. -/
def isLoggedInBody (env : ProbeEnv) : Except String Bool :=
  if env.navRaises then Except.error "nav failed"
  else Except.ok (loginIndicators.any env.selectorFound)

/-- Embedding of `LoginManager.is_logged_in`: the whole body runs in a
try/except that turns any exception into the answer `false`. -/
def is_logged_in (env : ProbeEnv) : Bool :=
  match isLoggedInBody env with
  | Except.ok b => b
  | Except.error _ => false

/-- Driver calls observable from `ensure_logged_in`: a login probe
(`is_logged_in`), a cookie load (`load_cookies`), the start of
interactive manual login, and a cookie save. -/
inductive SEvent
  | probe
  | cookieLoad
  | manualLoginStart
  | cookieSave
  deriving DecidableEq, Repr

/-- Environment of the session manager: whether `SELENIUM_REMOTE_URL`
is set, the cookie-load behaviour, the scripted outcomes of the
successive `is_logged_in` probes, and how many poll iterations
`manual_login` gets before its timeout elapses. -/
structure SessionEnv where
  seleniumRemoteUrl : Option String
  cookieEnv : CookieEnv
  probeResults : List Bool
  manualPollBudget : Nat

/-- Mutable state threaded through the session manager: how many
probes have happened (indexing into the scripted outcomes) and the
trace of driver calls. -/
structure SState where
  probes : Nat
  trace : List SEvent

/-- One call of `is_logged_in` as seen from `ensure_logged_in` and
`manual_login`: the next scripted probe outcome, recorded in the
trace. -/
def probeLoggedIn (env : SessionEnv) (st : SState) : Bool × SState :=
  (env.probeResults.getD st.probes false,
   ⟨st.probes + 1, st.trace ++ [SEvent.probe]⟩)

/-- `load_cookies` as called from `ensure_logged_in`: the call itself
is recorded in the trace, and the boolean result comes from the
cookie environment. -/
def loadCookiesCall (env : SessionEnv) (st : SState) : Bool × SState :=
  ((load_cookies env.cookieEnv).1, ⟨st.probes, st.trace ++ [SEvent.cookieLoad]⟩)

/-- The polling loop of `manual_login`: check `is_logged_in`; on
success save cookies and return `true`; otherwise sleep and poll
again until the timeout budget is exhausted, then return `false`. -/
def manualLoginGo (env : SessionEnv) : Nat → SState → Bool × SState
  | 0, st => (false, st)
  | fuel + 1, st =>
    let r := probeLoggedIn env st
    if r.1 then (true, ⟨r.2.probes, r.2.trace ++ [SEvent.cookieSave]⟩)
    else manualLoginGo env fuel r.2

/-- Embedding of `LoginManager.manual_login`: open the login page and
poll `is_logged_in` until success or timeout. -/
def manual_login (env : SessionEnv) (st : SState) : Bool × SState :=
  manualLoginGo env env.manualPollBudget
    ⟨st.probes, st.trace ++ [SEvent.manualLoginStart]⟩

/-- Embedding of `LoginManager.ensure_logged_in`.  With
`SELENIUM_REMOTE_URL` set (Docker mode) it loads cookies first — a
failed load is terminal — and then verifies with a probe.  In local
mode it trusts the persistent profile first, then tries a cookie load
plus re-probe, and finally falls back to interactive manual login. -/
def ensure_logged_in (env : SessionEnv) (st : SState) : Bool × SState :=
  let isDocker := env.seleniumRemoteUrl.isSome
  if isDocker then
    let r1 := loadCookiesCall env st
    if r1.1 = false then (false, r1.2)
    else
      let r2 := probeLoggedIn env r1.2
      if r2.1 then (true, r2.2) else (false, r2.2)
  else
    let r1 := probeLoggedIn env st
    if r1.1 then (true, r1.2)
    else
      let r2 := loadCookiesCall env r1.2
      if r2.1 then
        let r3 := probeLoggedIn env r2.2
        if r3.1 then (true, r3.2) else manual_login env r3.2
      else manual_login env r2.2

/-! ## uploader.py — TikTokUploader -/

/-- A button element as observed by one poll of `wait_for_upload`:
its text and whether it is displayed and enabled. -/
structure Btn where
  text : String
  displayed : Bool
  enabled : Bool
  deriving DecidableEq, Repr

/-- The per-button test in `wait_for_upload`:
`button.text.strip().lower() == "post" and button.is_displayed() and
button.is_enabled()`. -/
def readyPostButton (b : Btn) : Bool :=
  pyLower (pyStrip b.text) == "post" && b.displayed && b.enabled

/-- Number of ready post buttons among the observed buttons. -/
def readyCount (bs : List Btn) : Nat :=
  (bs.filter readyPostButton).length

/-- What one iteration of the `wait_for_upload` polling loop observes:
all buttons on the page, the displayed flags of the elements whose
text contains `Edit cover`, and the texts of the elements whose text
contains `%`. -/
structure UploadPoll where
  buttons : List Btn
  editCoverElems : List Bool
  progressTexts : List String
  deriving DecidableEq, Repr

/-- Condition under which `wait_for_upload` treats the edit-cover
marker as present: the element list is non-empty and some element is
displayed. -/
def editCoverSeen (p : UploadPoll) : Bool :=
  p.editCoverElems.any (fun d => d)

/-- The per-element progress test: on the stripped text,
`'%' in text and text != '100%'`. -/
def inProgressText (t : String) : Bool :=
  let s := pyStrip t
  strContainsSub "%" s && s != "100%"

/-- Whether this poll observed an in-progress percentage indicator,
which resets the debounce counter. -/
def progressReset (p : UploadPoll) : Bool :=
  p.progressTexts.any inProgressText

/-- The button scan of one `wait_for_upload` iteration: each ready
post button increments `post_found_count`, and reaching 3 returns
`True` from the whole wait immediately (`Sum.inl`); otherwise the
scan ends with the updated counter (`Sum.inr`). -/
def scanButtons (count : Nat) : List Btn → Sum Unit Nat
  | [] => Sum.inr count
  | b :: bs =>
    if readyPostButton b then
      if 3 ≤ count + 1 then Sum.inl () else scanButtons (count + 1) bs
    else scanButtons count bs

/-- One full iteration of the `wait_for_upload` loop, in source
order: the button scan (which may return early), then the edit-cover
increment, then the progress check which resets the counter to 0. -/
def uploadPollStep (count : Nat) (p : UploadPoll) : Sum Unit Nat :=
  match scanButtons count p.buttons with
  | Sum.inl u => Sum.inl u
  | Sum.inr c1 =>
    let c2 := if editCoverSeen p then c1 + 1 else c1
    let c3 := if progressReset p then 0 else c2
    Sum.inr c3

/-- Control-flow outcome of the `wait_for_upload` polling loop:
either completion was positively detected before the timeout (with
the unconsumed polls), or the loop timed out. -/
inductive WaitOutcome
  | detected (rest : List UploadPoll)
  | timedOut
  deriving DecidableEq, Repr

/-- The `wait_for_upload` polling loop over the finite list of
observations available before the timeout, threading
`post_found_count`. -/
def waitForUploadRun (count : Nat) : List UploadPoll → WaitOutcome
  | [] => WaitOutcome.timedOut
  | p :: ps =>
    match uploadPollStep count p with
    | Sum.inl _ => WaitOutcome.detected ps
    | Sum.inr c => waitForUploadRun c ps

/-- Did the wait return before its timeout? -/
def isDetected : WaitOutcome → Bool
  | WaitOutcome.detected _ => true
  | WaitOutcome.timedOut => false

/-- Embedding of `TikTokUploader._wait_for_upload` as seen by its
caller: detection before the timeout returns `True`, and the timeout
path also returns `True` (the code continues optimistically). -/
def wait_for_upload (polls : List UploadPoll) : Bool :=
  match waitForUploadRun 0 polls with
  | WaitOutcome.detected _ => true
  | WaitOutcome.timedOut => true

/-- What one iteration of the `wait_for_post_complete` loop observes:
the current URL and the set of success-indicator selectors whose
lookup succeeds. -/
structure PostPoll where
  currentUrl : String
  foundSelectors : List String
  deriving DecidableEq, Repr

/-- The success-indicator selector list of `wait_for_post_complete`. -/
def successIndicators : List String :=
  ["[data-e2e=\"upload-success\"]", ".upload-success",
   "text*=\"uploaded\"", "text*=\"posted\""]

/-- One iteration of the `wait_for_post_complete` loop: `True` if the
URL no longer mentions the upload surface
(`"upload" not in current_url.lower()`) or some success indicator is
found. -/
def postPollDetect (p : PostPoll) : Bool :=
  !(strContainsSub "upload" (pyLower p.currentUrl)) ||
    successIndicators.any (fun s => p.foundSelectors.contains s)

/-- Control-flow outcome of the `wait_for_post_complete` loop. -/
inductive PostOutcome
  | detected (rest : List PostPoll)
  | timedOut
  deriving DecidableEq, Repr

/-- The `wait_for_post_complete` polling loop over the observations
available before the timeout. -/
def waitForPostRun : List PostPoll → PostOutcome
  | [] => PostOutcome.timedOut
  | p :: ps =>
    if postPollDetect p then PostOutcome.detected ps
    else waitForPostRun ps

/-- Embedding of `TikTokUploader._wait_for_post_complete` as seen by
its caller: both confirmed completion and the timeout path return
`True` (timeout is assumed success). -/
def wait_for_post_complete (polls : List PostPoll) : Bool :=
  match waitForPostRun polls with
  | PostOutcome.detected _ => true
  | PostOutcome.timedOut => true

/-- Caption composition in `TikTokUploader._fill_caption`: the parts
list gets the title when non-empty and the space-joined hashtags when
the tag list is non-empty, then the parts are joined by a space. -/
def composeCaption (title : String) (tags : List String) : String :=
  let captionParts : List String :=
    (if title = "" then [] else [title]) ++
    (if tags = [] then []
     else [String.intercalate " " (tags.map (fun tag => "#" ++ tag))])
  String.intercalate " " captionParts

/-- Caption truncation in `_fill_caption`:
`full_caption[:max_length-3] + "..."` when the caption is longer than
the configured maximum, with Python slice semantics for the bound. -/
def truncateCaption (maxLength : Nat) (caption : String) : String :=
  if maxLength < caption.length then
    pySlicePrefix caption ((maxLength : Int) - 3) ++ "..."
  else caption

/-- The caption text `_fill_caption` actually types: `none` when the
composed caption is empty (the method returns without typing),
otherwise the possibly-truncated caption. -/
def fillCaptionText (maxLength : Nat) (title : String) (tags : List String) :
    Option String :=
  let full := composeCaption title tags
  if full = "" then none else some (truncateCaption maxLength full)

/-- Driver calls observable from `upload_video`, in pipeline order. -/
inductive UEvent
  | ensureLogin
  | navigate
  | findInput
  | sendFile
  | waitUpload
  | contentCheck
  | scrollPage
  | fillCaption
  | clickPost
  | warnPopups
  | waitPost
  deriving DecidableEq, Repr

/-- Environment of one `upload_video` call: whether the resolved video
path exists, the session-manager environment, whether a file input
element is found, the observations of the two polling waits, and
whether `_click_post_button` succeeds. -/
structure UploadEnv where
  videoExists : Bool
  sessionEnv : SessionEnv
  fileInputFound : Bool
  uploadPolls : List UploadPoll
  clickPostOk : Bool
  postPolls : List PostPoll

/-- Embedding of `TikTokUploader.upload_video`: preflight file-existence
check, login check, navigation, file-input lookup, file submission,
upload wait, popup handling, caption fill, post click, warning
popups, and post-completion wait.  The second component is the trace
of driver interactions. -/
def upload_video (env : UploadEnv) : Bool × List UEvent :=
  if env.videoExists = false then (false, [])
  else
    let loggedIn := (ensure_logged_in env.sessionEnv ⟨0, []⟩).1
    let tr := [UEvent.ensureLogin]
    if loggedIn = false then (false, tr)
    else
      let tr := tr ++ [UEvent.navigate, UEvent.findInput]
      if env.fileInputFound = false then (false, tr)
      else
        let tr := tr ++ [UEvent.sendFile, UEvent.waitUpload]
        if wait_for_upload env.uploadPolls = false then (false, tr)
        else
          let tr := tr ++ [UEvent.contentCheck, UEvent.scrollPage,
                           UEvent.fillCaption, UEvent.clickPost]
          if env.clickPostOk then
            (wait_for_post_complete env.postPolls,
             tr ++ [UEvent.warnPopups, UEvent.waitPost])
          else (false, tr)

/-! ## Theorems -/

/-- The cookie loop attempts exactly the sanitized form of every
input record, in order. -/
theorem addCookies_map (accepts : Cookie → Bool) (cs : List Cookie) :
    addCookies accepts cs = cs.map (fun c => (sanitize c, accepts (sanitize c))) := by
  induction cs with
  | nil => rfl
  | cons c cs ih => simp [addCookies, ih]

/-- Sanitized records carry no `sameSite` and no `storeId` field. -/
theorem sanitize_no_key (c : Cookie) (k : String)
    (hk : k = "sameSite" ∨ k = "storeId") : hasField (sanitize c) k = false := by
  cases hcase : hasField (sanitize c) k with
  | false => rfl
  | true =>
    exfalso
    unfold hasField sanitize at hcase
    rw [List.any_eq_true] at hcase
    obtain ⟨kv, hmem, hkv⟩ := hcase
    rw [List.mem_filter] at hmem
    have hk1 := eq_of_beq hkv
    have hne := of_decide_eq_true hmem.2
    rcases hk with h | h
    · exact hne.1 (h ▸ hk1)
    · exact hne.2 (h ▸ hk1)

/-- C1: `ensure_logged_in` branch-and-fallback order.  With a remote
endpoint configured and the cookie file absent it fails terminally
without ever starting interactive manual login; with no remote
endpoint and an initial probe that already reports logged-in it
succeeds without a cookie load and without manual login. -/
theorem c1_ensure_logged_in_order (env : SessionEnv) :
    (env.seleniumRemoteUrl.isSome = true → env.cookieEnv.fileExists = false →
      (ensure_logged_in env ⟨0, []⟩).1 = false ∧
      SEvent.manualLoginStart ∉ (ensure_logged_in env ⟨0, []⟩).2.trace) ∧
    (env.seleniumRemoteUrl = none → env.probeResults.getD 0 false = true →
      (ensure_logged_in env ⟨0, []⟩).1 = true ∧
      SEvent.cookieLoad ∉ (ensure_logged_in env ⟨0, []⟩).2.trace ∧
      SEvent.manualLoginStart ∉ (ensure_logged_in env ⟨0, []⟩).2.trace) := by
  constructor
  · intro hrem hfile
    have hlc : (load_cookies env.cookieEnv).1 = false := by
      simp [load_cookies, hfile]
    simp [ensure_logged_in, loadCookiesCall, hrem, hlc]
  · intro hrem hprobe
    rw [List.getD_eq_getElem?_getD] at hprobe
    simp [ensure_logged_in, probeLoggedIn, hrem, hprobe]

theorem c1_ensure_logged_in_order_witness :
    ((ensure_logged_in ⟨some "http://selenium:4444/wd/hub",
        ⟨false, true, [], fun _ => true⟩, [], 0⟩ ⟨0, []⟩).1 = false ∧
     SEvent.manualLoginStart ∉
       (ensure_logged_in ⟨some "http://selenium:4444/wd/hub",
         ⟨false, true, [], fun _ => true⟩, [], 0⟩ ⟨0, []⟩).2.trace) ∧
    ((ensure_logged_in ⟨none, ⟨false, true, [], fun _ => true⟩,
        [true], 0⟩ ⟨0, []⟩).1 = true ∧
     SEvent.cookieLoad ∉
       (ensure_logged_in ⟨none, ⟨false, true, [], fun _ => true⟩,
         [true], 0⟩ ⟨0, []⟩).2.trace ∧
     SEvent.manualLoginStart ∉
       (ensure_logged_in ⟨none, ⟨false, true, [], fun _ => true⟩,
         [true], 0⟩ ⟨0, []⟩).2.trace) :=
  ⟨(c1_ensure_logged_in_order _).1 rfl rfl,
   (c1_ensure_logged_in_order _).2 rfl rfl⟩

/-- C6: every record in the input cookie list is attempted with its
`sameSite` and `storeId` fields removed, a rejected record does not
abort the load (the trace covers the whole input list), and
`load_cookies` still returns `True`. -/
theorem c6_cookie_sanitization (env : CookieEnv)
    (h1 : env.fileExists = true) (h2 : env.driverOk = true) :
    (load_cookies env).1 = true ∧
    (load_cookies env).2.length = env.cookies.length ∧
    ∀ r ∈ (load_cookies env).2,
      hasField r.1 "sameSite" = false ∧ hasField r.1 "storeId" = false := by
  have hlc : load_cookies env = (true, addCookies env.accepts env.cookies) := by
    simp [load_cookies, h1, h2]
  rw [hlc]
  refine ⟨rfl, ?_, ?_⟩
  · rw [addCookies_map]
    simp
  · intro r hr
    rw [addCookies_map, List.mem_map] at hr
    obtain ⟨c, hc, hrc⟩ := hr
    rw [← hrc]
    exact ⟨sanitize_no_key c "sameSite" (Or.inl rfl),
           sanitize_no_key c "storeId" (Or.inr rfl)⟩

theorem c6_cookie_sanitization_witness :
    (load_cookies ⟨true, true,
        [⟨[("name", "sid"), ("sameSite", "Lax")]⟩,
         ⟨[("storeId", "0"), ("value", "v")]⟩], fun _ => false⟩).1 = true ∧
    (load_cookies ⟨true, true,
        [⟨[("name", "sid"), ("sameSite", "Lax")]⟩,
         ⟨[("storeId", "0"), ("value", "v")]⟩], fun _ => false⟩).2.length = 2 ∧
    ∀ r ∈ (load_cookies ⟨true, true,
        [⟨[("name", "sid"), ("sameSite", "Lax")]⟩,
         ⟨[("storeId", "0"), ("value", "v")]⟩], fun _ => false⟩).2,
      hasField r.1 "sameSite" = false ∧ hasField r.1 "storeId" = false :=
  c6_cookie_sanitization _ rfl rfl

/-- If every attempt from `a` up to the retry bound fails, the retry
loop raises the exhaustion error. -/
theorem remoteConnectGo_error (ok : Nat → Bool) (maxR a s : Nat)
    (ha : a < maxR) (hall : ∀ i, a ≤ i → i < maxR → ok i = false) :
    remoteConnectGo ok maxR a s = Except.error (connectMsg maxR) := by
  rw [remoteConnectGo.eq_def, dif_pos ha, hall a le_rfl ha,
    if_neg (by simp : ¬(false = true))]
  by_cases h2 : a < maxR - 1
  · rw [if_pos h2]
    exact remoteConnectGo_error ok maxR (a + 1) (s + 1) (by omega)
      (fun i hi1 hi2 => hall i (by omega) hi2)
  · rw [if_neg h2]
termination_by maxR - a

/-- If `j` is the first succeeding attempt at or after `a`, the retry
loop stops there, having made `j + 1 - a` further attempts and one
sleep per failed attempt. -/
theorem remoteConnectGo_ok (ok : Nat → Bool) (maxR a s j : Nat)
    (haj : a ≤ j) (hj : j < maxR)
    (hfirst : ∀ i, a ≤ i → i < j → ok i = false) (hok : ok j = true) :
    remoteConnectGo ok maxR a s = Except.ok ⟨j + 1, s + (j - a)⟩ := by
  rw [remoteConnectGo.eq_def, dif_pos (show a < maxR by omega)]
  by_cases hae : a = j
  · subst hae
    rw [if_pos hok]
    simp
  · have hja : a < j := by omega
    rw [hfirst a le_rfl hja, if_neg (by simp : ¬(false = true)),
      if_pos (show a < maxR - 1 by omega),
      remoteConnectGo_ok ok maxR (a + 1) (s + 1) j (by omega) hj
        (fun i h1 h2 => hfirst i (by omega) h2) hok]
    have heq : s + 1 + (j - (a + 1)) = s + (j - a) := by omega
    rw [heq]
termination_by j - a

/-- Any successful run of the retry loop started at attempt
`a ≤ maxR` makes at most `maxR` attempts. -/
theorem remoteConnectGo_bound (ok : Nat → Bool) (maxR a s : Nat) (c : Conn)
    (ha : a ≤ maxR) (h : remoteConnectGo ok maxR a s = Except.ok c) :
    c.attemptsMade ≤ maxR := by
  rw [remoteConnectGo.eq_def] at h
  by_cases h1 : a < maxR
  · rw [dif_pos h1] at h
    by_cases h2 : ok a = true
    · rw [if_pos h2] at h
      obtain rfl : Conn.mk (a + 1) s = c := by exact Except.ok.inj h
      simpa using h1
    · rw [if_neg h2] at h
      by_cases h3 : a < maxR - 1
      · rw [if_pos h3] at h
        exact remoteConnectGo_bound ok maxR (a + 1) (s + 1) c (by omega) h
      · rw [if_neg h3] at h
        exact absurd h (by simp)
  · rw [dif_neg h1] at h
    obtain rfl : Conn.mk a s = c := by exact Except.ok.inj h
    simpa using ha
termination_by maxR - a

/-- C8: remote-mode provisioning retry in `create_driver`: at most 30
connection attempts with one fixed 2-second sleep after each failed
attempt that is not the last, stopping at the first success (attempt
count one past the first succeeding index, one sleep per preceding
failure), and raising the terminal error naming the attempt count if
and only if all 30 attempts fail. -/
theorem c8_remote_retry (ok : Nat → Bool) :
    ((∀ i, i < 30 → ok i = false) →
      remoteConnect ok = Except.error (connectMsg 30)) ∧
    (∀ e, remoteConnect ok = Except.error e →
      e = connectMsg 30 ∧ ∀ i, i < 30 → ok i = false) ∧
    (∀ j, j < 30 → ok j = true → (∀ i, i < j → ok i = false) →
      remoteConnect ok = Except.ok ⟨j + 1, j⟩) ∧
    (∀ c, remoteConnect ok = Except.ok c → c.attemptsMade ≤ 30) := by
  refine ⟨?_, ?_, ?_, ?_⟩
  · intro hall
    exact remoteConnectGo_error ok 30 0 0 (by omega) (fun i _ h2 => hall i h2)
  · intro e he
    unfold remoteConnect at he
    by_cases hex : ∃ i, ok i = true ∧ i < 30
    · exfalso
      obtain ⟨i, hoki, hi⟩ := hex
      have hfe : ∃ i, ok i = true := ⟨i, hoki⟩
      have hj := Nat.find_spec hfe
      have hjle : Nat.find hfe ≤ i := Nat.find_min' hfe hoki
      have hmin : ∀ m, m < Nat.find hfe → ok m = false := by
        intro m hm
        have := Nat.find_min hfe hm
        cases hom : ok m with
        | false => rfl
        | true => exact absurd hom this
      rw [remoteConnectGo_ok ok 30 0 0 (Nat.find hfe) (by omega) (by omega)
        (fun m _ h2 => hmin m h2) hj] at he
      exact absurd he (by simp)
    · push_neg at hex
      have hall : ∀ i, i < 30 → ok i = false := by
        intro i hi
        cases hoi : ok i with
        | false => rfl
        | true => exact absurd hi (by simpa [hoi] using hex i)
      rw [remoteConnectGo_error ok 30 0 0 (by omega)
        (fun i _ h2 => hall i h2)] at he
      exact ⟨(Except.error.inj he).symm, hall⟩
  · intro j hj hok hfirst
    unfold remoteConnect
    have := remoteConnectGo_ok ok 30 0 0 j (by omega) hj
      (fun i _ h2 => hfirst i h2) hok
    simpa using this
  · intro c hc
    unfold remoteConnect at hc
    exact remoteConnectGo_bound ok 30 0 0 c (by omega) hc

theorem c8_remote_retry_witness :
    remoteConnect (fun i => decide (i = 2)) = Except.ok ⟨3, 2⟩ ∧
    remoteConnect (fun _ => false) = Except.error (connectMsg 30) :=
  ⟨(c8_remote_retry (fun i => decide (i = 2))).2.2.1 2 (by decide) (by decide)
      (by decide),
   (c8_remote_retry (fun _ => false)).1 (by decide)⟩

/-- C2: reaching the timeout without a positive detection yields the
success result: `_wait_for_upload` returns `True` when its polling
loop exhausts the timeout, and `_wait_for_post_complete` returns
`True` when its polling loop exhausts the timeout, so the caller sees
the same boolean whether completion was confirmed or assumed. -/
theorem c2_timeout_reports_success (up : List UploadPoll) (pp : List PostPoll)
    (h1 : waitForUploadRun 0 up = WaitOutcome.timedOut)
    (h2 : waitForPostRun pp = PostOutcome.timedOut) :
    wait_for_upload up = true ∧ wait_for_post_complete pp = true := by
  unfold wait_for_upload wait_for_post_complete
  rw [h1, h2]
  exact ⟨rfl, rfl⟩

theorem c2_timeout_reports_success_witness :
    waitForUploadRun 0 [] = WaitOutcome.timedOut ∧
    waitForPostRun [(⟨"https://www.tiktok.com/creator-center/upload", []⟩ : PostPoll)] =
      PostOutcome.timedOut ∧
    (wait_for_upload [] = true ∧
     wait_for_post_complete [(⟨"https://www.tiktok.com/creator-center/upload", []⟩ : PostPoll)] = true) :=
  ⟨rfl, by decide,
   c2_timeout_reports_success [] [⟨"https://www.tiktok.com/creator-center/upload", []⟩]
     rfl (by decide)⟩

/-- Characterization of the button scan: it returns early exactly when
at least one ready post button is seen and the counter reaches 3,
and otherwise ends with the counter increased by the number of ready
post buttons. -/
theorem scanButtons_eq (bs : List Btn) : ∀ c,
    scanButtons c bs =
      if 1 ≤ readyCount bs ∧ 3 ≤ c + readyCount bs then Sum.inl ()
      else Sum.inr (c + readyCount bs) := by
  induction bs with
  | nil =>
    intro c
    simp [scanButtons, readyCount]
  | cons b bs ih =>
    intro c
    by_cases hb : readyPostButton b = true
    · have hrc : readyCount (b :: bs) = readyCount bs + 1 := by
        simp [readyCount, List.filter_cons, hb]
      rw [hrc]
      by_cases h3 : (3 : Nat) ≤ c + 1
      · have hL : scanButtons c (b :: bs) = Sum.inl () := by
          simp [scanButtons, hb, h3]
        rw [hL, if_pos ⟨by omega, by omega⟩]
      · have hL : scanButtons c (b :: bs) = scanButtons (c + 1) bs := by
          simp [scanButtons, hb, h3]
        rw [hL, ih (c + 1)]
        by_cases h4 : 1 ≤ readyCount bs ∧ 3 ≤ c + 1 + readyCount bs
        · rw [if_pos h4, if_pos ⟨by omega, by omega⟩]
        · rw [if_neg h4, if_neg (by omega)]
          exact congrArg Sum.inr (by omega)
    · have hrc : readyCount (b :: bs) = readyCount bs := by
        simp [readyCount, List.filter_cons, hb]
      have hL : scanButtons c (b :: bs) = scanButtons c bs := by
        simp [scanButtons, hb]
      rw [hL, hrc]
      exact ih c
/-- A poll whose button scan does not detect completion ends the
iteration with the counter updated by the edit-cover increment and
the progress reset, in source order. -/
theorem uploadPollStep_inr (count : Nat) (p : UploadPoll)
    (h : ¬(1 ≤ readyCount p.buttons ∧ 3 ≤ count + readyCount p.buttons)) :
    uploadPollStep count p = Sum.inr (if progressReset p then 0 else
      (if editCoverSeen p then count + readyCount p.buttons + 1
       else count + readyCount p.buttons)) := by
  unfold uploadPollStep
  rw [scanButtons_eq, if_neg h]

/-- A poll with a ready post button whose count reaches 3 detects
completion during the button scan. -/
theorem uploadPollStep_inl (count : Nat) (p : UploadPoll)
    (h1 : 1 ≤ readyCount p.buttons)
    (h3 : 3 ≤ count + readyCount p.buttons) :
    uploadPollStep count p = Sum.inl () := by
  unfold uploadPollStep
  rw [scanButtons_eq, if_pos ⟨h1, h3⟩]

/-- Without a reset, a non-detecting poll leaves the counter at least
as large as the old counter plus its ready post buttons. -/
theorem uploadPollStep_ge (count : Nat) (p : UploadPoll)
    (hnd : ¬(1 ≤ readyCount p.buttons ∧ 3 ≤ count + readyCount p.buttons))
    (hnr : progressReset p = false) :
    ∃ c2, uploadPollStep count p = Sum.inr c2 ∧
      count + readyCount p.buttons ≤ c2 := by
  rw [uploadPollStep_inr count p hnd, hnr]
  simp only [Bool.false_eq_true, if_false]
  refine ⟨_, rfl, ?_⟩
  split <;> omega

/-- C3 counterexample: a poll stream in which the processing-complete
text marker `Edit cover` is visibly present at every poll, yet
`_wait_for_upload` never detects completion before the timeout — the
marker only increments the debounce counter, and the `>= 3` check
runs only inside the button scan, so the claimed
"OR the marker appears" completion condition is false. -/
theorem c3_wait_detection_counterexample :
    editCoverSeen (⟨[], [true], []⟩ : UploadPoll) = true ∧
    waitForUploadRun 0
      [(⟨[], [true], []⟩ : UploadPoll), ⟨[], [true], []⟩, ⟨[], [true], []⟩] =
      WaitOutcome.timedOut :=
  ⟨rfl, rfl⟩

/-- C3 amended: the debounce counter persists across polls; three
polls in a row that each show a ready (displayed and enabled) post
button, with no in-progress percentage indicator among the first two,
force detection before the timeout; a visible `Edit cover` marker
only increments the counter and — with no post button ever observed —
never triggers detection by itself; and an in-progress percentage
observation (a stripped `%` text other than `100%`) in a
non-detecting poll resets the counter to zero for the rest of the
wait. -/
theorem c3_wait_detection_amended (c : Nat) (p1 p2 p3 q : UploadPoll)
    (rest ps polls : List UploadPoll) :
    (1 ≤ readyCount p1.buttons → 1 ≤ readyCount p2.buttons →
     1 ≤ readyCount p3.buttons → progressReset p1 = false →
     progressReset p2 = false →
     isDetected (waitForUploadRun 0 (p1 :: p2 :: p3 :: rest)) = true) ∧
    (progressReset q = true →
     (c + readyCount q.buttons < 3 ∨ readyCount q.buttons = 0) →
     waitForUploadRun c (q :: ps) = waitForUploadRun 0 ps) ∧
    ((∀ p ∈ polls, p.buttons = []) →
     waitForUploadRun c polls = WaitOutcome.timedOut) := by
  refine ⟨?_, ?_, ?_⟩
  · intro h1 h2 h3b hr1 hr2
    by_cases d1 : 3 ≤ 0 + readyCount p1.buttons
    · have hs := uploadPollStep_inl 0 p1 h1 d1
      simp [waitForUploadRun, hs, isDetected]
    · obtain ⟨c1, hs1, hge1⟩ := uploadPollStep_ge 0 p1 (by omega) hr1
      have hrun1 : waitForUploadRun 0 (p1 :: p2 :: p3 :: rest) =
          waitForUploadRun c1 (p2 :: p3 :: rest) := by
        simp [waitForUploadRun, hs1]
      rw [hrun1]
      by_cases d2 : 3 ≤ c1 + readyCount p2.buttons
      · have hs := uploadPollStep_inl c1 p2 h2 d2
        simp [waitForUploadRun, hs, isDetected]
      · obtain ⟨c2, hs2, hge2⟩ := uploadPollStep_ge c1 p2 (by omega) hr2
        have hrun2 : waitForUploadRun c1 (p2 :: p3 :: rest) =
            waitForUploadRun c2 (p3 :: rest) := by
          simp [waitForUploadRun, hs2]
        rw [hrun2]
        have hs := uploadPollStep_inl c2 p3 h3b (by omega)
        simp [waitForUploadRun, hs, isDetected]
  · intro hq hlt
    have hs := uploadPollStep_inr c q (by omega)
    rw [hq] at hs
    simp only [if_pos rfl] at hs
    simp [waitForUploadRun, hs]
  · induction polls generalizing c with
    | nil => intro _; rfl
    | cons p ps2 ih =>
      intro hall
      have hp : p.buttons = [] := hall p (by simp)
      have hs : uploadPollStep c p =
          Sum.inr (if progressReset p then 0 else
            (if editCoverSeen p then c + readyCount p.buttons + 1
             else c + readyCount p.buttons)) := by
        apply uploadPollStep_inr
        rw [hp]
        simp [readyCount]
      rw [show waitForUploadRun c (p :: ps2) =
          waitForUploadRun (if progressReset p then 0 else
            (if editCoverSeen p then c + readyCount p.buttons + 1
             else c + readyCount p.buttons)) ps2 from by
        simp [waitForUploadRun, hs]]
      exact ih _ (fun r hr => hall r (by simp [hr]))

theorem c3_wait_detection_amended_witness :
    isDetected (waitForUploadRun 0
      [(⟨[⟨"Post", true, true⟩], [], []⟩ : UploadPoll),
       ⟨[⟨"Post", true, true⟩], [], []⟩,
       ⟨[⟨"Post", true, true⟩], [], []⟩]) = true ∧
    waitForUploadRun 5 [(⟨[], [], ["37%"]⟩ : UploadPoll)] =
      waitForUploadRun 0 [] ∧
    waitForUploadRun 5 [(⟨[], [true], []⟩ : UploadPoll)] =
      WaitOutcome.timedOut :=
  ⟨(c3_wait_detection_amended 5 ⟨[⟨"Post", true, true⟩], [], []⟩
      ⟨[⟨"Post", true, true⟩], [], []⟩ ⟨[⟨"Post", true, true⟩], [], []⟩
      ⟨[], [], ["37%"]⟩ [] [] [⟨[], [true], []⟩]).1
      (by decide) (by decide) (by decide) (by decide) (by decide),
   (c3_wait_detection_amended 5 ⟨[⟨"Post", true, true⟩], [], []⟩
      ⟨[⟨"Post", true, true⟩], [], []⟩ ⟨[⟨"Post", true, true⟩], [], []⟩
      ⟨[], [], ["37%"]⟩ [] [] [⟨[], [true], []⟩]).2.1
      (by decide) (Or.inr (by decide)),
   (c3_wait_detection_amended 5 ⟨[⟨"Post", true, true⟩], [], []⟩
      ⟨[⟨"Post", true, true⟩], [], []⟩ ⟨[⟨"Post", true, true⟩], [], []⟩
      ⟨[], [], ["37%"]⟩ [] [] [⟨[], [true], []⟩]).2.2
      (by decide)⟩

/-- C4 counterexample: with a configured max length of 2 the Python
slice bound `max_length - 3` is negative, so the "truncated" caption
`abc...` is longer than the original and exceeds the maximum — the
claim fails for configured max lengths below 3. -/
theorem c4_caption_truncation_counterexample :
    2 < (composeCaption "abcd" []).length ∧
    truncateCaption 2 (composeCaption "abcd" []) = "abc..." ∧
    2 < (truncateCaption 2 (composeCaption "abcd" [])).length :=
  ⟨by decide, by decide, by decide⟩

/-- C4 amended: for a configured max length of at least 3 (the
default is 150), a composed caption longer than the maximum is
truncated to exactly `max_length` characters ending in an ellipsis,
and a caption at or under the maximum is left unchanged. -/
theorem c4_caption_truncation_amended (maxLength : Nat) (title : String)
    (tags : List String) (hmax : 3 ≤ maxLength) :
    (maxLength < (composeCaption title tags).length →
      (truncateCaption maxLength (composeCaption title tags)).length = maxLength ∧
      ∃ p, truncateCaption maxLength (composeCaption title tags) = p ++ "...") ∧
    ((composeCaption title tags).length ≤ maxLength →
      truncateCaption maxLength (composeCaption title tags) =
        composeCaption title tags) := by
  set full := composeCaption title tags with hfull
  constructor
  · intro hover
    have hif : truncateCaption maxLength full =
        pySlicePrefix full ((maxLength : Int) - 3) ++ "..." := by
      unfold truncateCaption
      rw [if_pos hover]
    have harg : ((maxLength : Int) - 3).toNat = maxLength - 3 := by omega
    have hslice : pySlicePrefix full ((maxLength : Int) - 3) =
        String.mk (full.toList.take (maxLength - 3)) := by
      unfold pySlicePrefix
      rw [if_pos (by omega : (0 : Int) ≤ (maxLength : Int) - 3), harg]
    rw [hif, hslice]
    have hmk : (String.mk (full.toList.take (maxLength - 3))).length =
        (full.toList.take (maxLength - 3)).length := rfl
    have hfl : full.toList.length = full.length := rfl
    constructor
    · rw [String.length_append, hmk, List.length_take]
      have hd : ("..." : String).length = 3 := rfl
      rw [hd]
      omega
    · exact ⟨_, rfl⟩
  · intro hle
    unfold truncateCaption
    rw [if_neg (by omega)]

theorem c4_caption_truncation_amended_witness :
    5 < (composeCaption "abcdefgh" []).length ∧
    ((truncateCaption 5 (composeCaption "abcdefgh" [])).length = 5 ∧
     ∃ p, truncateCaption 5 (composeCaption "abcdefgh" []) = p ++ "...") ∧
    truncateCaption 5 (composeCaption "ok" ["a"]) = composeCaption "ok" ["a"] :=
  ⟨by decide,
   (c4_caption_truncation_amended 5 "abcdefgh" [] (by decide)).1 (by decide),
   (c4_caption_truncation_amended 5 "ok" ["a"] (by decide)).2 (by decide)⟩

/-- C5: for a non-empty title and a non-empty tag list the composed
caption is the title, a single space, and the tags rendered as
space-separated hashtags; in particular title `My trip` with tags
`travel, summer` composes to `My trip #travel #summer`. -/
theorem c5_caption_composition (title : String) (t : String) (ts : List String)
    (h : title ≠ "") :
    composeCaption title (t :: ts) =
      title ++ " " ++ String.intercalate " " ((t :: ts).map (fun tag => "#" ++ tag)) := by
  unfold composeCaption
  rw [if_neg h, if_neg (List.cons_ne_nil t ts)]
  rfl

theorem c5_caption_composition_witness :
    "My trip" ≠ "" ∧
    composeCaption "My trip" ["travel", "summer"] = "My trip #travel #summer" :=
  ⟨by decide,
   (c5_caption_composition "My trip" "travel" ["summer"] (by decide)).trans rfl⟩

/-- C7: when the video path does not reference an existing local file,
`upload_video` returns `False` immediately with an empty driver
trace — no login check and no browser navigation happen. -/
theorem c7_upload_preflight (env : UploadEnv) (h : env.videoExists = false) :
    upload_video env = (false, []) := by
  unfold upload_video
  rw [h]
  rfl

theorem c7_upload_preflight_witness :
    upload_video ⟨false, ⟨none, ⟨false, true, [], fun _ => true⟩, [], 0⟩,
      false, [], false, []⟩ = (false, []) :=
  c7_upload_preflight _ rfl

/-- C9: `close` is idempotent — closing a never-created or
already-closed handle is a no-op, so close composed with close equals
close — and even when the underlying `quit` raises, `closeBrowser`
returns normally (it is a total function into `BMState`, embedding
the try/except that swallows the error) with the handle cleared to
`None`. -/
theorem c9_close_idempotent (raises : Bool) (st : BMState) :
    closeBrowser raises (closeBrowser raises st) = closeBrowser raises st ∧
    (st.driver = none → closeBrowser raises st = st) ∧
    (closeBrowser raises st).driver = none := by
  obtain ⟨d, q, w⟩ := st
  cases d <;> cases raises <;> simp [closeBrowser, quitDriver]

theorem c9_close_idempotent_witness :
    closeBrowser true (closeBrowser true ⟨some 1, 0, 0⟩) =
      closeBrowser true ⟨some 1, 0, 0⟩ ∧
    closeBrowser true ⟨none, 5, 2⟩ = ⟨none, 5, 2⟩ ∧
    (closeBrowser true ⟨some 1, 0, 0⟩).driver = none :=
  ⟨(c9_close_idempotent true ⟨some 1, 0, 0⟩).1,
   (c9_close_idempotent true ⟨none, 5, 2⟩).2.1 rfl,
   (c9_close_idempotent true ⟨some 1, 0, 0⟩).2.2⟩

/-- C10: `is_logged_in` is total at its interface: whenever its body
raises (in particular when navigating to the base URL itself fails),
the outer try/except turns the exception into the answer `false`
instead of propagating, so every driver behaviour yields a boolean. -/
theorem c10_is_logged_in_total (env : ProbeEnv) :
    (∀ e, isLoggedInBody env = Except.error e → is_logged_in env = false) ∧
    (env.navRaises = true → is_logged_in env = false) := by
  constructor
  · intro e he
    unfold is_logged_in
    rw [he]
  · intro h
    simp [is_logged_in, isLoggedInBody, h]

theorem c10_is_logged_in_total_witness :
    isLoggedInBody ⟨true, fun _ => true⟩ = Except.error "nav failed" ∧
    is_logged_in ⟨true, fun _ => true⟩ = false :=
  ⟨rfl, (c10_is_logged_in_total ⟨true, fun _ => true⟩).2 rfl⟩

end MiniTiktok
